import Mathlib

/-!
Verification of the spreadsheet-to-table normalizer of `src/app.py`
(`load_and_clean_data`) and the KPI-snapshot code that consumes it.

The Python code works on pandas DataFrames read from an Excel workbook.
We embed it shallowly:

* a spreadsheet cell is `Cell` (a string, a number, or a blank/NaN cell);
* a raw sheet (`pd.read_excel(..., header=None)`) is a `List (List Cell)`;
* `pd.to_numeric(v, errors=coerce)` is `toNumeric` (missing = `none`);
* `pd.to_datetime(h, errors=coerce)` on the Screener-export column headers
  (`"Mar-21"`-style month-year strings) is `parseDate` (NaT = `none`);
* the header scan of the first 20 rows, the date-column filter, the numeric
  coercion, the transpose and the chronological sort are `normalize`;
* the `try/except` wrapper with its `st.error` calls is `load_and_clean_data`,
  returning the table-or-`none` result together with the list of
  user-visible error messages;
* the KPI snapshot's Python negative indexing `df.index[-1]` / `[-2]` is
  `pyIdx`, and the period-over-period delta is `kpiDelta` (a missing
  endpoint, NaN in Python, is `none`, and NaN propagates through the
  subtraction).

Machine floats carry no weight here: the data values in the claims are
integers, so numbers are embedded as `Int` and NaN as `Option.none`.
-/

namespace App

/-- A raw spreadsheet cell as produced by `pd.read_excel(..., header=None)`:
a string, a number, or a blank cell (pandas `NaN`). -/
inductive Cell : Type
  | str (s : String)
  | num (n : Int)
  | blank
deriving DecidableEq

/-- A calendar period: the year and month of a parsed column header
(pandas `Timestamp`, day component irrelevant for the monthly statements). -/
structure Date : Type where
  year : Nat
  month : Nat
deriving DecidableEq

/-- Total order key used to compare periods chronologically
(the order `sort_index` uses on `Timestamp`s). -/
def Date.key (d : Date) : Nat := d.year * 12 + d.month

/-- Digit-string value accumulator for `toNumeric`. -/
def digitsValAux : Nat → List Char → Option Nat
  | acc, [] => some acc
  | acc, c :: cs =>
    if c.isDigit then digitsValAux (acc * 10 + (c.toNat - 48)) cs else none

/-- Value of a nonempty all-digit character list; `none` otherwise. -/
def digitsVal : List Char → Option Nat
  | [] => none
  | cs => digitsValAux 0 cs

/-- Whitespace test for the characters `pd.to_numeric` ignores around a
numeric string. -/
def isSpaceChar (c : Char) : Bool :=
  decide (c = ' ') || decide (c = '\t') || decide (c = '\n') || decide (c = '\r')

/-- Strip leading and trailing whitespace from a character list. -/
def trimChars (cs : List Char) : List Char :=
  ((cs.dropWhile isSpaceChar).reverse.dropWhile isSpaceChar).reverse

/-- Parse a string as an integer the way `pd.to_numeric` does on the string
cells of this export: optional leading minus then digits, surrounding
whitespace ignored; anything else (including `"NA"` and comma-grouped
strings such as `"1,234"`, which `pd.to_numeric` cannot parse) fails. -/
def parseNumStr (s : String) : Option Int :=
  match trimChars s.data with
  | [] => none
  | '-' :: cs => (digitsVal cs).map (fun n => -(n : Int))
  | cs => (digitsVal cs).map (fun n => (n : Int))

/-- `pd.to_numeric(cell, errors=coerce)`: numbers pass through, strings are
parsed (unparseable ones coerce to missing), blank/NaN stays missing. -/
def toNumeric (c : Cell) : Option Int :=
  match c with
  | .num n => some n
  | .str s => parseNumStr s
  | .blank => none

/-- Month number of a three-letter English month abbreviation. -/
def monthOfAbbrev (s : List Char) : Option Nat :=
  if s = "Jan".data then some 1 else
  if s = "Feb".data then some 2 else
  if s = "Mar".data then some 3 else
  if s = "Apr".data then some 4 else
  if s = "May".data then some 5 else
  if s = "Jun".data then some 6 else
  if s = "Jul".data then some 7 else
  if s = "Aug".data then some 8 else
  if s = "Sep".data then some 9 else
  if s = "Oct".data then some 10 else
  if s = "Nov".data then some 11 else
  if s = "Dec".data then some 12 else none

/-- Two-digit year `"21" ↦ 2021` (the century pandas picks for `%y`). -/
def parseYear2 (s : List Char) : Option Nat :=
  match s with
  | [a, b] =>
    if a.isDigit && b.isDigit then
      some (2000 + ((a.toNat - 48) * 10 + (b.toNat - 48)))
    else none
  | _ => none

/-- Split a character list on a separator character (the list of groups
between separators, in order; no group contains the separator). -/
def splitOnSep (sep : Char) : List Char → List (List Char)
  | [] => [[]]
  | c :: cs =>
    match splitOnSep sep cs with
    | [] => [[]]
    | g :: gs => if c = sep then [] :: g :: gs else (c :: g) :: gs

/-- `pd.to_datetime(header, errors=coerce)` restricted to the header shapes
of this export: a `"Mon-YY"` string parses to its period, every other cell
(e.g. `"Trailing"`, a number, a blank) coerces to NaT = `none`. -/
def parseDate (c : Cell) : Option Date :=
  match c with
  | .str s =>
    match splitOnSep '-' s.data with
    | [m, y] =>
      match monthOfAbbrev m, parseYear2 y with
      | some mo, some yr => some ⟨yr, mo⟩
      | _, _ => none
    | _ => none
  | _ => none

/-- The header scan body: first row (absolute index reported via `i`)
containing a cell equal to the keyword. -/
def findHeaderRowAux (K : String) : List (List Cell) → Nat → Option Nat
  | [], _ => none
  | r :: rs, i =>
    if Cell.str K ∈ r then some i else findHeaderRowAux K rs (i + 1)

/-- Lines 17-26 of `app.py`: read the first 20 rows (`nrows=20`) and scan
them top-to-bottom for the first row containing a cell equal to
`header_keyword` (`if header_keyword in row.values`). -/
def findHeaderRow (grid : List (List Cell)) (K : String) : Option Nat :=
  findHeaderRowAux K (grid.take 20) 0

/-- Column-index/period pairs of the header cells after the first, keeping
only those whose header parses as a date (lines 40-48 of `app.py`:
`pd.to_datetime(date_columns, errors=coerce)` then keeping `Timestamp`
columns). `j` is the absolute column index into each data row. -/
def datedColsAux : List Cell → Nat → List (Nat × Date)
  | [], _ => []
  | c :: cs, j =>
    match parseDate c with
    | some d => (j, d) :: datedColsAux cs (j + 1)
    | none => datedColsAux cs (j + 1)

/-- Date columns of a header row: everything after the metric-name column,
filtered to parseable dates, tagged with its column index. -/
def datedCols (header : List Cell) : List (Nat × Date) :=
  datedColsAux (header.drop 1) 1

/-- The transposed table of `app.py` step 6: rows keyed by period, columns
named by the metric cells of the first data column. A cell value of `none`
is pandas NaN (missing, never zero). -/
structure NormalizedTable : Type where
  metrics : List Cell
  rows : List (Date × List (Option Int))
deriving DecidableEq

/-- One transposed row per dated column: the period, paired with the
numeric coercion (`pd.to_numeric(..., errors=coerce)`) of that column's
cell in every data row. A row too short for the column reads as blank/NaN,
as pandas pads missing trailing cells. -/
def buildRows (dataRows : List (List Cell)) (cols : List (Nat × Date)) :
    List (Date × List (Option Int)) :=
  cols.map (fun p => (p.2, dataRows.map (fun r => toNumeric (r.getD p.1 .blank))))

/-- Chronological comparison used by `sort_index` on the transposed rows. -/
def rowLe (a b : Date × List (Option Int)) : Prop := a.1.key ≤ b.1.key

/-- Insert one transposed row into a chronologically sorted list. -/
def insertRow (x : Date × List (Option Int)) :
    List (Date × List (Option Int)) → List (Date × List (Option Int))
  | [] => [x]
  | y :: ys => if x.1.key ≤ y.1.key then x :: y :: ys else y :: insertRow x ys

/-- `df_transposed.sort_index()`: sort the transposed rows by period. -/
def sortRows : List (Date × List (Option Int)) → List (Date × List (Option Int))
  | [] => []
  | x :: xs => insertRow x (sortRows xs)

/-- Result of the normalization core: the cleaned transposed table, or the
header-not-found outcome carrying the sheet name and keyword that line 29
of `app.py` reports (`st.error`) before returning `None`. -/
inductive LoadResult : Type
  | ok (t : NormalizedTable)
  | headerNotFound (sheet keyword : String)
deriving DecidableEq

/-- The body of `load_and_clean_data` (lines 17-60 of `app.py`) given the
raw grid of the sheet: locate the header row within the first 20 rows, use
it as the header (data starts on the next row), keep the metric-name
column plus the date-parseable columns, coerce data cells to numbers,
transpose so periods are rows and metrics are columns, and sort rows
chronologically. -/
def normalize (grid : List (List Cell)) (sheet K : String) : LoadResult :=
  match findHeaderRow grid K with
  | none => .headerNotFound sheet K
  | some h =>
    let header := grid.getD h []
    let dataRows := grid.drop (h + 1)
    let cols := datedCols header
    .ok { metrics := dataRows.map (fun r => r.getD 0 .blank)
          rows := sortRows (buildRows dataRows cols) }

/-- Keyword match check evaluated per kept metric cell: nonempty string
that does not contain the exclusion marker as a substring (numbers kept,
blanks excluded). Used only by the spec-modelled variant below. -/
def isPrefixOfChars : List Char → List Char → Bool
  | [], _ => true
  | _ :: _, [] => false
  | a :: as, b :: bs => a = b && isPrefixOfChars as bs

/-- Substring test on character lists (needle occurs somewhere in hay). -/
def containsSub (needle : List Char) : List Char → Bool
  | [] => isPrefixOfChars needle []
  | c :: cs => isPrefixOfChars needle (c :: cs) || containsSub needle cs

/-- Substring test on strings. -/
def strContains (s marker : String) : Bool := containsSub marker.data s.data

/-- Whether a metric-name cell survives the row filter of the spec's step 4:
an empty string or a blank cell is dropped, a string containing the
exclusion marker is dropped, everything else is kept. -/
def metricKeep (marker : String) (c : Cell) : Bool :=
  match c with
  | .str s => !(s = "") && !(strContains s marker)
  | .num _ => true
  | .blank => false

/-- Modelled from the spec: the row-exclusion step of the two normalizer
variants (`clean_financial_sheet`, `load_excel_sheet`) that are not under
`src/`; `src/app.py` has no such step. Spec step 4: "Drop any row whose
metric-name cell is empty, or whose metric name contains a designated
exclusion marker". -/
def dropExcludedRows (marker : String) (rows : List (List Cell)) :
    List (List Cell) :=
  rows.filter (fun r => metricKeep marker (r.getD 0 .blank))

/-- Modelled from the spec: the normalizer variant that additionally drops
excluded data rows (spec step 4) before coercing and transposing;
otherwise identical to `normalize`. -/
def normalizeVariant (grid : List (List Cell)) (sheet K marker : String) :
    LoadResult :=
  match findHeaderRow grid K with
  | none => .headerNotFound sheet K
  | some h =>
    let header := grid.getD h []
    let dataRows := dropExcludedRows marker (grid.drop (h + 1))
    let cols := datedCols header
    .ok { metrics := dataRows.map (fun r => r.getD 0 .blank)
          rows := sortRows (buildRows dataRows cols) }

/-- An Excel workbook: named sheets, each a raw grid. -/
structure Workbook : Type where
  sheets : List (String × List (List Cell))

/-- The exceptions `pd.read_excel` can raise inside the `try` block:
file missing/unreadable or sheet missing. -/
inductive PyExn : Type
  | fileNotFound
  | sheetNotFound (sheet : String)

/-- Exception text interpolated into the `st.error` message of line 63. -/
def PyExn.describe : PyExn → String
  | .fileNotFound => "no such file"
  | .sheetNotFound s => "worksheet " ++ s ++ " not found"

/-- `pd.read_excel(file_path, sheet_name=...)`: the raw grid of the named
sheet, or the exception it raises. The file argument is `none` when the
path does not resolve to a workbook. -/
def read_excel (file : Option Workbook) (sheet : String) :
    Except PyExn (List (List Cell)) :=
  match file with
  | none => .error .fileNotFound
  | some wb =>
    match wb.sheets.lookup sheet with
    | none => .error (.sheetNotFound sheet)
    | some grid => .ok grid

/-- The `st.error` message of line 29 of `app.py`. -/
def headerErrMsg (sheet K : String) : String :=
  "Could not find header " ++ K ++ " in sheet " ++ sheet

/-- The `st.error` message of line 63 of `app.py` (the `except` branch). -/
def exnErrMsg (sheet : String) (e : PyExn) : String :=
  "Error loading " ++ sheet ++ ": " ++ e.describe

/-- Lines 16-64 of `app.py`: the whole of `load_and_clean_data`, including
the `try/except Exception` wrapper. Returns the Python return value
(`Some table` or `None`) together with the list of user-visible `st.error`
messages emitted; an exception raised by the body is caught and turned
into the error-message-plus-`None` outcome, never propagated. -/
def load_and_clean_data (file : Option Workbook) (sheet K : String) :
    Option NormalizedTable × List String :=
  match read_excel file sheet with
  | .error e => (none, [exnErrMsg sheet e])
  | .ok grid =>
    match normalize grid sheet K with
    | .headerNotFound s k => (none, [headerErrMsg s k])
    | .ok t => (some t, [])

/-- Python negative indexing `l[i]` on a list: a negative index counts from
the end; an index out of range on either side raises, i.e. has no value. -/
def pyIdx {α : Type} (l : List α) (i : Int) : Option α :=
  let j : Int := if i < 0 then i + l.length else i
  if 0 ≤ j ∧ j < (l.length : Int) then l[j.toNat]? else none

/-- Line 79 of `app.py`: `latest_date = df_main.index[-1]`. -/
def latest_date (t : NormalizedTable) : Option Date :=
  pyIdx (t.rows.map Prod.fst) (-1)

/-- Line 80 of `app.py`: `last_year_date = df_main.index[-2]`. -/
def last_year_date (t : NormalizedTable) : Option Date :=
  pyIdx (t.rows.map Prod.fst) (-2)

/-- `df_main.loc[d, metric]`: the value of the given metric column in the
row keyed by `d`; `none` when the row or column is absent or the stored
value is NaN. -/
def locValue (t : NormalizedTable) (d : Date) (metric : Cell) : Option Int :=
  match t.rows.lookup d, t.metrics.findIdx? (fun c => decide (c = metric)) with
  | some vals, some j => vals.getD j none
  | _, _ => none

/-- `float(val_now) - float(val_prev)` under NaN propagation: the result is
a number exactly when both endpoints are, and NaN (`none`) otherwise. -/
def optSub (a b : Option Int) : Option Int :=
  match a, b with
  | some x, some y => some (x - y)
  | _, _ => none

/-- Lines 88-90 of `app.py`: the period-over-period KPI delta,
`df_main.loc[latest_date, metric] - df_main.loc[last_year_date, metric]`,
with NaN endpoints propagating to an undefined (`none`) delta. -/
def kpiDelta (t : NormalizedTable) (metric : Cell) : Option Int :=
  match latest_date t, last_year_date t with
  | some dN, some dP => optSub (locValue t dN metric) (locValue t dP metric)
  | _, _ => none

/-! ## Concrete grids and tables used by counterexamples and witnesses -/

/-- A grid whose only occurrence of the keyword is at row index 20, just
past the 20-row scan window (`nrows=20`). -/
def c1Grid : List (List Cell) :=
  List.replicate 20 [Cell.blank] ++ [[Cell.str "Report Date"]]

/-- A grid with the keyword at row 1 and a coincidental occurrence at
row 3 inside the data region. -/
def c1WitnessGrid : List (List Cell) :=
  [[Cell.blank], [Cell.str "Years", Cell.str "Mar-21"], [Cell.num 5],
   [Cell.str "Years"]]

/-- A grid with one kept data row and three excludable ones: an
empty-string metric, a blank metric, and a metric containing the marker. -/
def c3Grid : List (List Cell) :=
  [[Cell.str "Narration", Cell.str "Mar-21"],
   [Cell.str "Sales", Cell.str "10"],
   [Cell.str "", Cell.str "11"],
   [Cell.blank, Cell.str "12"],
   [Cell.str "Notes on accounts", Cell.str "13"]]

/-- The table the spec-modelled variant produces from `c3Grid`. -/
def c3Table : NormalizedTable :=
  { metrics := [Cell.str "Sales"]
    rows := [(⟨2021, 3⟩, [some 10])] }

/-- A grid with no cell equal to the keyword `Report Date`. -/
def c4Grid : List (List Cell) :=
  [[Cell.str "A", Cell.num 1], [Cell.num 2]]

/-- The spec's worked example: header row with one non-date column
(`Trailing`) and out-of-order date columns. -/
def c5Grid : List (List Cell) :=
  [[Cell.str "Report Date", Cell.str "Mar-22", Cell.str "Trailing",
    Cell.str "Mar-21"],
   [Cell.str "Sales", Cell.str "1000", Cell.str "999", Cell.str "1200"]]

/-- The normalized table of `c5Grid`: `Trailing` absent, rows sorted. -/
def c5Table : NormalizedTable :=
  { metrics := [Cell.str "Sales"]
    rows := [(⟨2021, 3⟩, [some 1200]), (⟨2022, 3⟩, [some 1000])] }

/-- A grid whose period columns appear out of chronological order. -/
def c6Grid : List (List Cell) :=
  [[Cell.str "Years", Cell.str "Mar-23", Cell.str "Mar-21", Cell.str "Mar-22"],
   [Cell.str "ROCE %", Cell.str "3", Cell.str "1", Cell.str "2"]]

/-- The normalized table of `c6Grid`: rows in chronological order. -/
def c6Table : NormalizedTable :=
  { metrics := [Cell.str "ROCE %"]
    rows := [(⟨2021, 3⟩, [some 1]), (⟨2022, 3⟩, [some 2]),
             (⟨2023, 3⟩, [some 3])] }

/-- A two-period table holding the `Net Profit` metric. -/
def c7Table : NormalizedTable :=
  { metrics := [Cell.str "Net Profit"]
    rows := [(⟨2021, 3⟩, [some 1000]), (⟨2022, 3⟩, [some 1200])] }

/-- A grid whose keyword `Years` first occurs at row index 21, beyond the
20-row scan window. -/
def c8Grid : List (List Cell) :=
  List.replicate 21 [Cell.str "x"] ++ [[Cell.str "Years"]]

/-! ## Supporting lemmas -/

lemma insertRow_perm (x : Date × List (Option Int))
    (l : List (Date × List (Option Int))) : (insertRow x l).Perm (x :: l) := by
  induction l with
  | nil => simp [insertRow]
  | cons y ys ih =>
    by_cases hle : x.1.key ≤ y.1.key
    · simp [insertRow, hle]
    · simp only [insertRow, if_neg hle]
      exact (ih.cons y).trans (List.Perm.swap x y ys)

lemma sortRows_perm (l : List (Date × List (Option Int))) :
    (sortRows l).Perm l := by
  induction l with
  | nil => simp [sortRows]
  | cons x xs ih =>
    exact (insertRow_perm x (sortRows xs)).trans (ih.cons x)

lemma insertRow_pairwise (x : Date × List (Option Int))
    (l : List (Date × List (Option Int))) (h : List.Pairwise rowLe l) :
    List.Pairwise rowLe (insertRow x l) := by
  induction l with
  | nil => simp [insertRow, List.pairwise_singleton]
  | cons y ys ih =>
    rcases List.pairwise_cons.mp h with ⟨hy, hys⟩
    by_cases hle : x.1.key ≤ y.1.key
    · simp only [insertRow, if_pos hle]
      refine List.pairwise_cons.mpr ⟨?_, h⟩
      intro b hb
      rcases List.mem_cons.mp hb with hb | hb
      · subst hb; exact hle
      · exact Nat.le_trans hle (hy b hb)
    · simp only [insertRow, if_neg hle]
      refine List.pairwise_cons.mpr ⟨?_, ih hys⟩
      intro b hb
      have hb' : b ∈ x :: ys := (insertRow_perm x ys).mem_iff.mp hb
      rcases List.mem_cons.mp hb' with hb' | hb'
      · subst hb'; exact Nat.le_of_not_le hle
      · exact hy b hb'

lemma sortRows_pairwise (l : List (Date × List (Option Int))) :
    List.Pairwise rowLe (sortRows l) := by
  induction l with
  | nil => simp [sortRows]
  | cons x xs ih => exact insertRow_pairwise x (sortRows xs) ih

lemma findHeaderRowAux_eq_none (K : String) :
    ∀ (l : List (List Cell)) (i : Nat),
      (∀ r ∈ l, Cell.str K ∉ r) → findHeaderRowAux K l i = none := by
  intro l
  induction l with
  | nil => intro i _; rfl
  | cons r rs ih =>
    intro i h
    have hr : Cell.str K ∉ r := h r (List.mem_cons_self r rs)
    simp only [findHeaderRowAux, if_neg hr]
    exact ih (i + 1) (fun s hs => h s (List.mem_cons_of_mem r hs))

lemma findHeaderRowAux_first (K : String) :
    ∀ (l : List (List Cell)) (i r : Nat),
      Cell.str K ∈ l.getD r [] →
      (∀ j, j < r → Cell.str K ∉ l.getD j []) →
      findHeaderRowAux K l i = some (i + r) := by
  intro l
  induction l with
  | nil =>
    intro i r hmem _
    simp [List.getD] at hmem
  | cons a as ih =>
    intro i r hmem hfirst
    cases r with
    | zero =>
      have ha : Cell.str K ∈ a := by simpa [List.getD_cons_zero] using hmem
      simp [findHeaderRowAux, if_pos ha]
    | succ r =>
      have ha : Cell.str K ∉ a := by
        have := hfirst 0 (Nat.succ_pos r)
        simpa [List.getD_cons_zero] using this
      simp only [findHeaderRowAux, if_neg ha]
      have hmem' : Cell.str K ∈ as.getD r [] := by
        simpa [List.getD_cons_succ] using hmem
      have hfirst' : ∀ j, j < r → Cell.str K ∉ as.getD j [] := by
        intro j hj
        have := hfirst (j + 1) (Nat.succ_lt_succ hj)
        simpa [List.getD_cons_succ] using this
      have := ih (i + 1) r hmem' hfirst'
      rw [this]
      congr 1
      omega

lemma getD_take {α : Type} (d : α) :
    ∀ (l : List α) (n i : Nat), i < n → (l.take n).getD i d = l.getD i d := by
  intro l
  induction l with
  | nil => intro n i _; simp
  | cons a as ih =>
    intro n i h
    cases n with
    | zero => omega
    | succ n =>
      cases i with
      | zero => simp [List.take]
      | succ i =>
        simp only [List.take, List.getD_cons_succ]
        exact ih n i (Nat.lt_of_succ_lt_succ h)

lemma datedColsAux_map_snd :
    ∀ (cs : List Cell) (j : Nat),
      (datedColsAux cs j).map Prod.snd = cs.filterMap parseDate := by
  intro cs
  induction cs with
  | nil => intro j; rfl
  | cons c cs ih =>
    intro j
    cases hp : parseDate c with
    | none => simp [datedColsAux, hp, List.filterMap_cons, ih]
    | some d => simp [datedColsAux, hp, List.filterMap_cons, ih]

lemma buildRows_map_fst (dataRows : List (List Cell))
    (cols : List (Nat × Date)) :
    (buildRows dataRows cols).map Prod.fst = cols.map Prod.snd := by
  simp [buildRows, List.map_map, Function.comp]

lemma pyIdx_neg_one_isSome {α : Type} (l : List α) :
    (pyIdx l (-1)).isSome = true ↔ 1 ≤ l.length := by
  unfold pyIdx
  have h1 : (-1 : Int) < 0 := by omega
  simp only [h1, if_true]
  by_cases h2 : 1 ≤ l.length
  · rw [if_pos ⟨by omega, by omega⟩]
    have hlt : (-1 + (l.length : Int)).toNat < l.length := by omega
    simp [List.getElem?_eq_getElem hlt, h2]
  · rw [if_neg (by omega)]
    simp [h2]

lemma pyIdx_neg_two_isSome {α : Type} (l : List α) :
    (pyIdx l (-2)).isSome = true ↔ 2 ≤ l.length := by
  unfold pyIdx
  have h1 : (-2 : Int) < 0 := by omega
  simp only [h1, if_true]
  by_cases h2 : 2 ≤ l.length
  · rw [if_pos ⟨by omega, by omega⟩]
    have hlt : (-2 + (l.length : Int)).toNat < l.length := by omega
    simp [List.getElem?_eq_getElem hlt, h2]
  · rw [if_neg (by omega)]
    simp [h2]

lemma normalize_ok_eq (grid : List (List Cell)) (sheet K : String) (h : Nat)
    (hfind : findHeaderRow grid K = some h) :
    normalize grid sheet K =
      .ok { metrics := (grid.drop (h + 1)).map (fun r => r.getD 0 .blank)
            rows := sortRows (buildRows (grid.drop (h + 1))
              (datedCols (grid.getD h []))) } := by
  unfold normalize
  rw [hfind]

lemma normalizeVariant_ok_eq (grid : List (List Cell)) (sheet K marker : String)
    (h : Nat) (hfind : findHeaderRow grid K = some h) :
    normalizeVariant grid sheet K marker =
      .ok { metrics := (dropExcludedRows marker (grid.drop (h + 1))).map
              (fun r => r.getD 0 .blank)
            rows := sortRows (buildRows
              (dropExcludedRows marker (grid.drop (h + 1)))
              (datedCols (grid.getD h []))) } := by
  unfold normalizeVariant
  rw [hfind]

/-! ## Claim theorems -/

/-- C1 (corrected), counterexample: the claim quantifies over *every* grid
containing the keyword, but the scan reads only the first 20 rows
(`nrows=20`). In `c1Grid` the keyword `Report Date` first appears at row
index 20 (no earlier row contains it), yet the normalizer selects no
header row at all — in particular not row 20 — and reports not-found. -/
theorem C1_counterexample :
    Cell.str "Report Date" ∈ c1Grid.getD 20 [] ∧
    ((c1Grid.take 20).all fun row =>
      !(decide (Cell.str "Report Date" ∈ row))) = true ∧
    findHeaderRow c1Grid "Report Date" = none ∧
    normalize c1Grid "Data Sheet" "Report Date" =
      .headerNotFound "Data Sheet" "Report Date" := by
  decide

/-- C1 (amended): for every grid whose header keyword first appears at a
row index `r` within the 20-row scan window (`r < 20`), the scan selects
exactly row `r` — the first row containing a cell equal to the keyword —
and ignores any coincidental occurrence of the keyword in later rows. -/
theorem C1_first_matching_row_in_window (grid : List (List Cell)) (K : String)
    (r : Nat) (hr : r < 20) (hmem : Cell.str K ∈ grid.getD r [])
    (hfirst : ∀ j, j < r → Cell.str K ∉ grid.getD j []) :
    findHeaderRow grid K = some r := by
  have hmem' : Cell.str K ∈ (grid.take 20).getD r [] := by
    rw [getD_take ([] : List Cell) grid 20 r hr]
    exact hmem
  have hfirst' : ∀ j, j < r → Cell.str K ∉ (grid.take 20).getD j [] := by
    intro j hj
    rw [getD_take ([] : List Cell) grid 20 j (Nat.lt_trans hj hr)]
    exact hfirst j hj
  have hmain := findHeaderRowAux_first K (grid.take 20) 0 r hmem' hfirst'
  unfold findHeaderRow
  rw [hmain, Nat.zero_add]

/-- C1 witness: in `c1WitnessGrid` the keyword `Years` first appears at
row 1 and again at row 3; the scan selects row 1. -/
theorem C1_witness : findHeaderRow c1WitnessGrid "Years" = some 1 :=
  C1_first_matching_row_in_window c1WitnessGrid "Years" 1 (by decide)
    (by decide) (by decide)

/-- C2 (code bug), code evaluated at the failing input: line 53 of
`app.py` uses `pd.to_numeric(df[col], errors=coerce)`, which cannot parse
comma-grouped strings, so `"1,234"` coerces to missing (`NaN`) instead of
the `1234` the spec — and the code's own comment "remove commas" on
line 51 — promise. Unparseable strings such as `"NA"` do become missing
(that half of the claim holds), and plain digit strings parse. -/
theorem C2_comma_string_becomes_missing :
    toNumeric (Cell.str "1,234") = none ∧
    toNumeric (Cell.str "NA") = none ∧
    toNumeric (Cell.str "1234") = some 1234 := by
  decide

/-- C3 (spec-modelled): in the variant that performs the spec's row
exclusion (step 4), every metric name appearing as an output column of a
successfully normalized table survives the filter: it is a nonempty,
non-blank name that does not contain the exclusion marker. Hence every
data row with an empty metric cell or a marker-bearing metric name is
dropped and contributes no output column. -/
theorem C3_excluded_rows_dropped (grid : List (List Cell))
    (sheet K marker : String) (t : NormalizedTable) (m : Cell)
    (hok : normalizeVariant grid sheet K marker = .ok t)
    (hm : m ∈ t.metrics) : metricKeep marker m = true := by
  cases hfind : findHeaderRow grid K with
  | none =>
    unfold normalizeVariant at hok
    rw [hfind] at hok
    exact absurd hok (by simp)
  | some h =>
    rw [normalizeVariant_ok_eq grid sheet K marker h hfind] at hok
    injection hok with hok
    subst hok
    rcases List.mem_map.mp hm with ⟨r, hr, hmr⟩
    rcases List.mem_filter.mp hr with ⟨_, hkeep⟩
    rw [← hmr]
    exact hkeep

/-- C3 witness: normalizing `c3Grid` with marker `Note` keeps the metric
`Sales`, whose name indeed passes the exclusion filter. -/
theorem C3_witness : metricKeep "Note" (Cell.str "Sales") = true :=
  C3_excluded_rows_dropped c3Grid "Cash Flow" "Narration" "Note" c3Table
    (Cell.str "Sales") (by decide) (by decide)

/-- C4: for every grid with no cell equal to the keyword, the normalizer
returns the not-found result carrying the sheet name and keyword,
and `load_and_clean_data` returns `None` — no partial table — after
emitting exactly the error message naming the sheet and keyword. -/
theorem C4_no_keyword_not_found (grid : List (List Cell)) (sheet K : String)
    (habsent : ∀ row ∈ grid, Cell.str K ∉ row) :
    normalize grid sheet K = .headerNotFound sheet K ∧
    load_and_clean_data (some ⟨[(sheet, grid)]⟩) sheet K =
      (none, [headerErrMsg sheet K]) := by
  have hfind : findHeaderRow grid K = none := by
    unfold findHeaderRow
    exact findHeaderRowAux_eq_none K (grid.take 20) 0
      (fun r hr => habsent r (List.take_subset 20 grid hr))
  have hnorm : normalize grid sheet K = .headerNotFound sheet K := by
    unfold normalize
    rw [hfind]
  refine ⟨hnorm, ?_⟩
  simp [load_and_clean_data, read_excel, List.lookup, hnorm]

/-- C4 witness: `c4Grid` contains no `Report Date` cell, so the sheet
normalizes to the not-found outcome and the loader returns `None` with
the error message. -/
theorem C4_witness :
    normalize c4Grid "Data Sheet" "Report Date" =
      .headerNotFound "Data Sheet" "Report Date" ∧
    load_and_clean_data (some ⟨[("Data Sheet", c4Grid)]⟩) "Data Sheet"
      "Report Date" = (none, [headerErrMsg "Data Sheet" "Report Date"]) :=
  C4_no_keyword_not_found c4Grid "Data Sheet" "Report Date" (by decide)

/-- C5: for every grid with a located header row, the multiset of periods
keyed by the output rows is exactly the date-parseable headers after the
first column: every column whose header fails to parse as a date (e.g.
`Trailing`) is excluded, and every column with a parseable date header is
kept — no error raised in either case. -/
theorem C5_nondate_columns_dropped (grid : List (List Cell))
    (sheet K : String) (h : Nat) (t : NormalizedTable)
    (hfind : findHeaderRow grid K = some h)
    (hok : normalize grid sheet K = .ok t) :
    (t.rows.map Prod.fst).Perm
      (((grid.getD h []).drop 1).filterMap parseDate) := by
  rw [normalize_ok_eq grid sheet K h hfind] at hok
  injection hok with hok
  subst hok
  have h1 := (sortRows_perm (buildRows (grid.drop (h + 1))
    (datedCols (grid.getD h [])))).map Prod.fst
  rw [buildRows_map_fst] at h1
  unfold datedCols at h1
  rw [datedColsAux_map_snd] at h1
  exact h1

/-- C5 witness: on the spec's example grid the output periods are a
permutation of the parseable headers (`Mar-22`, `Mar-21`), with
`Trailing` absent. -/
theorem C5_witness :
    (c5Table.rows.map Prod.fst).Perm
      (((c5Grid.getD 0 []).drop 1).filterMap parseDate) :=
  C5_nondate_columns_dropped c5Grid "Data Sheet" "Report Date" 0 c5Table
    (by decide) (by decide)

/-- C6: every successfully normalized table has its rows sorted ascending
chronologically (pairwise non-decreasing period keys), whatever the order
of the period columns in the source header row. -/
theorem C6_rows_sorted_ascending (grid : List (List Cell)) (sheet K : String)
    (t : NormalizedTable) (hok : normalize grid sheet K = .ok t) :
    List.Pairwise rowLe t.rows := by
  cases hfind : findHeaderRow grid K with
  | none =>
    unfold normalize at hok
    rw [hfind] at hok
    exact absurd hok (by simp)
  | some h =>
    rw [normalize_ok_eq grid sheet K h hfind] at hok
    injection hok with hok
    subst hok
    exact sortRows_pairwise _

/-- C6 witness: `c6Grid` lists its periods out of order
(`Mar-23`, `Mar-21`, `Mar-22`), yet the normalized rows come out
chronologically sorted. -/
theorem C6_witness : List.Pairwise rowLe c6Table.rows :=
  C6_rows_sorted_ascending c6Grid "Ratio Analysis" "Years" c6Table (by decide)

/-- C7: given the latest and previous periods of the main table, the KPI
delta equals `value(latest) - value(previous)` whenever both endpoints are
present, and is undefined (`none`, not a number) whenever either endpoint
is missing. -/
theorem C7_kpi_delta_spec (t : NormalizedTable) (m : Cell) (dN dP : Date)
    (a b : Int) (hN : latest_date t = some dN)
    (hP : last_year_date t = some dP) :
    (locValue t dN m = some a → locValue t dP m = some b →
      kpiDelta t m = some (a - b)) ∧
    ((locValue t dN m = none ∨ locValue t dP m = none) →
      kpiDelta t m = none) := by
  have hdelta : kpiDelta t m = optSub (locValue t dN m) (locValue t dP m) := by
    simp only [kpiDelta, hN, hP]
  rw [hdelta]
  constructor
  · intro ha hb
    rw [ha, hb]
    rfl
  · intro hor
    rcases hor with hc | hc
    · cases hx : locValue t dP m <;> simp [optSub, hc, hx]
    · cases hx : locValue t dN m <;> simp [optSub, hc, hx]

/-- C7 witness: on the two-period `c7Table` the `Net Profit` delta is
`1200 - 1000`. -/
theorem C7_witness :
    kpiDelta c7Table (Cell.str "Net Profit") = some (1200 - 1000) :=
  (C7_kpi_delta_spec c7Table (Cell.str "Net Profit") ⟨2022, 3⟩ ⟨2021, 3⟩
    1200 1000 (by decide) (by decide)).1 (by decide) (by decide)

/-- C8: the header search reads only the first 20 rows (`nrows=20`): for
every grid in which the keyword occurs nowhere in rows 0-19 — even when
it does occur at row 20 or later — the normalizer reports the
header-not-found outcome. -/
theorem C8_scan_window_misses_late_header (grid : List (List Cell))
    (sheet K : String)
    (hout : ∀ j, j < 20 → Cell.str K ∉ grid.getD j [])
    (hpresent : ∃ i, Cell.str K ∈ grid.getD i []) :
    normalize grid sheet K = .headerNotFound sheet K := by
  have hfind : findHeaderRow grid K = none := by
    unfold findHeaderRow
    apply findHeaderRowAux_eq_none
    intro row hrow
    rcases List.mem_iff_getElem.mp hrow with ⟨j, hj, hrj⟩
    have hj20 : j < 20 := by
      have := hj
      rw [List.length_take] at this
      omega
    have h1 : (grid.take 20).getD j [] = row := by
      rw [List.getD_eq_getElem _ _ hj]
      exact hrj
    have h2 : grid.getD j [] = row := by
      rw [← getD_take ([] : List Cell) grid 20 j hj20]
      exact h1
    intro hKrow
    exact hout j hj20 (h2 ▸ hKrow)
  unfold normalize
  rw [hfind]

/-- C8 witness: in `c8Grid` the keyword `Years` is present (at row 21)
but absent from rows 0-19, and the normalizer reports not-found. -/
theorem C8_witness :
    normalize c8Grid "Ratio Analysis" "Years" =
      .headerNotFound "Ratio Analysis" "Years" :=
  C8_scan_window_misses_late_header c8Grid "Ratio Analysis" "Years"
    (by decide) ⟨21, by decide⟩

/-- C9: for every input — file present or not, sheet present or not,
keyword found or not — `load_and_clean_data` never propagates an
exception: it returns either a table with no error message, or `None`
together with exactly one user-visible error message. -/
theorem C9_no_exception_escapes (file : Option Workbook) (sheet K : String) :
    (∃ t, load_and_clean_data file sheet K = (some t, [])) ∨
    (∃ m, load_and_clean_data file sheet K = (none, [m])) := by
  cases hre : read_excel file sheet with
  | error e =>
    refine Or.inr ⟨exnErrMsg sheet e, ?_⟩
    simp only [load_and_clean_data, hre]
  | ok grid =>
    cases hn : normalize grid sheet K with
    | ok t =>
      refine Or.inl ⟨t, ?_⟩
      simp only [load_and_clean_data, hre, hn]
    | headerNotFound s k =>
      refine Or.inr ⟨headerErrMsg s k, ?_⟩
      simp only [load_and_clean_data, hre, hn]

/-- C10: the KPI snapshot's accesses `df_main.index[-1]` and
`df_main.index[-2]` both have a value exactly when the normalized table
has at least two rows; with fewer rows at least one access is out of
bounds and has no value. -/
theorem C10_kpi_needs_two_periods (t : NormalizedTable) :
    ((latest_date t).isSome = true ∧ (last_year_date t).isSome = true) ↔
      2 ≤ t.rows.length := by
  unfold latest_date last_year_date
  rw [pyIdx_neg_one_isSome, pyIdx_neg_two_isSome, List.length_map]
  omega

end App
